import Mathlib

/-
Shallow embedding of src/src/pipes/standard-validation.pipe.ts
(StandardValidationPipe) from the nestjs-stdschema repository.

JavaScript values relevant to the pipe are modelled explicitly:
  - validated values are kept abstract as a type parameter V;
  - the standard-schema validation outcome is a record whose issues field
    can be absent, present-but-undefined, present-but-null, or an array;
  - the constructor first argument is classified the way the runtime
    isSchema check classifies it (typeof object, null, the tilde-standard
    property and its typeof).
Asynchrony is erased: the source awaits Promise.resolve(...) uniformly, so
validate is modelled as a pure function.
-/

namespace StdSchemaPipe

/-- A JavaScript PropertyKey (string or numeric index; symbols omitted). -/
inductive PropKey where
  | str (s : String)
  | num (n : Nat)
deriving DecidableEq

/-- One segment of a standard-schema issue path: either a bare PropertyKey,
or a path-segment descriptor object carrying a key field. -/
inductive PathSegment where
  | raw (k : PropKey)
  | descriptor (k : PropKey)
deriving DecidableEq

/-- One reported validation issue: an optional path and a message
(StandardSchemaV1.Issue). -/
structure Issue where
  path : Option (List PathSegment)
  message : String
deriving DecidableEq

/-- The runtime state of the issues field of a validation outcome, as
distinguished by the source check on the outcome record:
the field may be missing from the record, present with value undefined,
present with value null, or present with an array of issues. -/
inductive IssuesField where
  | absent
  | undef
  | nullv
  | arr (issues : List Issue)
deriving DecidableEq

/-- Truthiness of the issues check in transform: the conjunction of the
membership test of the issues key and the truthiness of its value.  An
array (even empty) is truthy; undefined and null are falsy; a missing
field fails the membership test. -/
def issuesTruthy : IssuesField → Bool
  | .arr _ => true
  | _ => false

/-- A standard-schema validation outcome: the issues field state plus the
value field (read only on the success path). -/
structure ValidationOutcome (V : Type) where
  issues : IssuesField
  value : V

/-- The nested standard namespace of a schema object: its validate entry
point. -/
structure StandardNamespace (V : Type) where
  validate : V → ValidationOutcome V

/-- A schema object as the pipe uses it: an object whose tilde-standard
property is an object exposing validate (field named std here because the
source property name is not a legal Lean identifier). -/
structure SchemaObj (V : Type) where
  std : StandardNamespace V

/-- One entry of the errors array in the default exception body. -/
structure ErrorEntry where
  path : List PropKey
  message : String
deriving DecidableEq

/-- The body of the default validation-failure exception. -/
structure ValidationErrorBody where
  statusCode : Nat
  message : String
  errors : List ErrorEntry
deriving DecidableEq

/-- An HttpException instance as observable data: a response body and an
HTTP status. -/
structure HttpExceptionObj (V : Type) where
  body : V
  status : Nat
deriving DecidableEq

/-- What a custom exceptionFactory may return: an HttpException instance,
or any other value. -/
inductive FactoryResult (V : Type) where
  | httpExc (e : HttpExceptionObj V)
  | plain (payload : V)
deriving DecidableEq

/-- The exception thrown by the pipe: a factory-produced HttpException
propagated as-is, a BadRequestException wrapping a non-exception factory
result, or the default HttpException built from the issues. -/
inductive ThrownError (V : Type) where
  | factory (e : HttpExceptionObj V)
  | badRequestWrapped (payload : V)
  | validationFailed (body : ValidationErrorBody) (status : Nat)
deriving DecidableEq

/-- The outcome of transform: the resolved value, or a thrown exception. -/
inductive TransformResult (V : Type) where
  | ok (value : V)
  | thrown (e : ThrownError V)
deriving DecidableEq

/-- A metatype (a class reference) as the pipe inspects it: whether it is
one of the primitive wrapper types String, Boolean, Number, Array, Object;
its optional static schema property; and the optional schema stored under
the schema metadata key by the Schema decorator. -/
structure Metatype (V : Type) where
  isPrimitiveWrapper : Bool
  staticSchema : Option (SchemaObj V)
  decoratorSchema : Option (SchemaObj V)

/-- The parameter kind of the argument descriptor (metadata.type). -/
inductive ParamKind where
  | body
  | query
  | param
  | custom
deriving DecidableEq

/-- The options record StandardValidationPipeOptions.  The
validateCustomDecorators flag is read through JavaScript truthiness, so an
unset field and false are both modelled as false. -/
structure StandardValidationPipeOptions (V : Type) where
  errorHttpStatusCode : Option Nat := none
  exceptionFactory : Option (List Issue → FactoryResult V) := none
  validateCustomDecorators : Bool := false
  expectedType : Option (Metatype V) := none

/-- The argument descriptor ArgumentMetadata: the parameter kind (field
named type in the source) and the optional declared metatype. -/
structure ArgumentMetadata (V : Type) where
  kind : ParamKind
  metatype : Option (Metatype V)

/-- The tilde-standard property of an object passed to the constructor:
either its typeof is object (a standard namespace), or it is present with
a non-object typeof. -/
inductive StdProperty (V : Type) where
  | objectVal (ns : StandardNamespace V)
  | nonObjectVal

/-- An object passed as the constructor first argument: its optional
tilde-standard property, and its reading as an options record (the fields
an options lookup would find on it). -/
structure JsObjectArg (V : Type) where
  stdProp : Option (StdProperty V)
  asOptions : StandardValidationPipeOptions V

/-- The constructor first argument schemaOrOptions at runtime: undefined
(also covers an omitted argument), null, a non-object primitive, or an
object. -/
inductive CtorFirstArg (V : Type) where
  | undef
  | nullv
  | primitive
  | obj (o : JsObjectArg V)

/-- The isSchema type guard: the value is of typeof object, is not null,
has a tilde-standard property, and that property is of typeof object. -/
def isSchema {V : Type} : CtorFirstArg V → Bool
  | .obj o =>
    match o.stdProp with
    | some (.objectVal _) => true
    | _ => false
  | _ => false

/-- The schema the constructor stores when isSchema holds (the argument
itself, viewed as a schema object). -/
def schemaOf {V : Type} : CtorFirstArg V → Option (SchemaObj V)
  | .obj o =>
    match o.stdProp with
    | some (.objectVal ns) => some (SchemaObj.mk ns)
    | _ => none
  | _ => none

/-- Reading the constructor first argument as an options record on the
non-schema branch: the source applies nullish coalescing with the empty
record, and option lookups on a primitive yield undefined. -/
def firstArgAsOptions {V : Type} : CtorFirstArg V → StandardValidationPipeOptions V
  | .obj o => o.asOptions
  | _ => {}

/-- The immutable per-instance state set by the constructor: the bound
schema (if any) and the options record. -/
structure PipeState (V : Type) where
  schema : Option (SchemaObj V)
  options : StandardValidationPipeOptions V

/-- The constructor: if the first argument passes isSchema it becomes the
bound schema and the second argument (nullish-coalesced with the empty
record) becomes the options; otherwise the schema is undefined and the
first argument (nullish-coalesced with the empty record) becomes the
options, the second argument being ignored. -/
def mkPipe {V : Type} (first : CtorFirstArg V)
    (second : Option (StandardValidationPipeOptions V)) : PipeState V :=
  if isSchema first then
    { schema := schemaOf first, options := second.getD {} }
  else
    { schema := none, options := firstArgAsOptions first }

/-- Nullish coalescing on optional values, as used for expectedType. -/
def nullish {V : Type} (a b : Option V) : Option V :=
  match a with
  | some x => some x
  | none => b

/-- The isPrimitive check: membership of the type in the fixed list
String, Boolean, Number, Array, Object, carried here as a field of the
metatype model. -/
def isPrimitive {V : Type} (t : Metatype V) : Bool :=
  t.isPrimitiveWrapper

/-- getSchemaFromType: the static schema property wins when present
(truthy); otherwise the metadata stored by the Schema decorator is
returned (possibly undefined). -/
def getSchemaFromType {V : Type} (t : Metatype V) : Option (SchemaObj V) :=
  match t.staticSchema with
  | some s => some s
  | none => t.decoratorSchema

/-- getSchema: the bound schema wins; else custom-kind parameters are
skipped unless validateCustomDecorators is truthy; else the expectedType
option (nullish-coalesced with the metatype) is inspected, skipping when
it is absent or primitive, and otherwise delegating to
getSchemaFromType. -/
def getSchema {V : Type} (p : PipeState V) (metadata : ArgumentMetadata V) :
    Option (SchemaObj V) :=
  match p.schema with
  | some s => some s
  | none =>
    if metadata.kind = ParamKind.custom ∧ p.options.validateCustomDecorators = false then
      none
    else
      match nullish p.options.expectedType metadata.metatype with
      | none => none
      | some t => if isPrimitive t then none else getSchemaFromType t

/-- The key a path segment flattens to: a bare segment is kept, a
descriptor object contributes its key field. -/
def segmentKey : PathSegment → PropKey
  | .raw k => k
  | .descriptor k => k

/-- normalizePath: a falsy (absent) path becomes the empty list; otherwise
each segment is flattened to its key. -/
def normalizePath : Option (List PathSegment) → List PropKey
  | none => []
  | some segs => segs.map segmentKey

/-- HttpStatus.BAD_REQUEST. -/
def badRequestStatusCode : Nat := 400

/-- createException: with a custom factory, call it on a copy of the
issues; an HttpException result is returned as-is, anything else is
wrapped in a BadRequestException.  Without a factory, build the default
HttpException whose body carries the chosen status code, the fixed
message, and one path-and-message entry per issue. -/
def createException {V : Type} (p : PipeState V) (issues : List Issue) :
    ThrownError V :=
  match p.options.exceptionFactory with
  | some factory =>
    match factory issues with
    | .httpExc e => .factory e
    | .plain payload => .badRequestWrapped payload
  | none =>
    let statusCode := p.options.errorHttpStatusCode.getD badRequestStatusCode
    .validationFailed
      { statusCode := statusCode,
        message := "Validation failed",
        errors := issues.map fun issue =>
          { path := normalizePath issue.path, message := issue.message } }
      statusCode

/-- transform: resolve the schema (returning the value unchanged when none
applies), run validate, throw createException when the issues field is
present and truthy, and otherwise return the outcome value. -/
def transform {V : Type} (p : PipeState V) (value : V)
    (metadata : ArgumentMetadata V) : TransformResult V :=
  match getSchema p metadata with
  | none => .ok value
  | some schema =>
    let result := schema.std.validate value
    match result.issues with
    | .arr issues => .thrown (createException p issues)
    | _ => .ok result.value

theorem mkPipe_schema_obj {V : Type} (o : JsObjectArg V) (ns : StandardNamespace V)
    (h : o.stdProp = some (.objectVal ns))
    (second : Option (StandardValidationPipeOptions V)) :
    mkPipe (.obj o) second = ⟨some ⟨ns⟩, second.getD {}⟩ := by
  simp [mkPipe, isSchema, schemaOf, h]

theorem getSchema_bound {V : Type} (s : SchemaObj V)
    (opts : StandardValidationPipeOptions V) (m : ArgumentMetadata V) :
    getSchema ⟨some s, opts⟩ m = some s := rfl

theorem transform_bound_fail_default_aux {V : Type} (s : SchemaObj V)
    (opts : StandardValidationPipeOptions V) (hfac : opts.exceptionFactory = none)
    (v : V) (m : ArgumentMetadata V) (issues : List Issue)
    (hfail : (s.std.validate v).issues = .arr issues) :
    transform ⟨some s, opts⟩ v m =
      .thrown (.validationFailed
        ⟨opts.errorHttpStatusCode.getD badRequestStatusCode, "Validation failed",
          issues.map fun i => ⟨normalizePath i.path, i.message⟩⟩
        (opts.errorHttpStatusCode.getD badRequestStatusCode)) := by
  unfold transform
  rw [getSchema_bound]
  simp only [hfail, createException, hfac]

/-- C1: for a pipe constructed with an explicit schema, whenever the bound
schema's validate entry point returns a success outcome (its issues field
is not a truthy value), transform returns exactly the value carried by
that outcome. -/
theorem transform_bound_schema_returns_success_value {V : Type}
    (o : JsObjectArg V) (ns : StandardNamespace V)
    (hstd : o.stdProp = some (.objectVal ns))
    (second : Option (StandardValidationPipeOptions V))
    (v : V) (m : ArgumentMetadata V)
    (hsucc : issuesTruthy (ns.validate v).issues = false) :
    transform (mkPipe (.obj o) second) v m = .ok (ns.validate v).value := by
  rw [mkPipe_schema_obj o ns hstd second]
  unfold transform
  rw [getSchema_bound]
  cases hiss : (ns.validate v).issues with
  | arr l => rw [hiss] at hsucc; simp [issuesTruthy] at hsucc
  | absent => simp [hiss]
  | undef => simp [hiss]
  | nullv => simp [hiss]

/-- Witness for C1: a concrete schema doubling its numeric input succeeds
on 5, and transform returns 10. -/
theorem transform_bound_schema_returns_success_value_witness :
    transform
      (mkPipe (CtorFirstArg.obj ⟨some (.objectVal ⟨fun v => ⟨.absent, 2 * v⟩⟩), {}⟩) none)
      5 ⟨.body, none⟩ = TransformResult.ok 10 :=
  transform_bound_schema_returns_success_value
    ⟨some (.objectVal ⟨fun v => ⟨.absent, 2 * v⟩⟩), {}⟩
    ⟨fun v => ⟨.absent, 2 * v⟩⟩ rfl none 5 ⟨.body, none⟩ rfl

/-- C2: for a pipe constructed with an explicit schema and no custom
exception factory, an outcome carrying issues makes transform throw the
default exception whose errors array has exactly one entry per issue, in
the same order, each entry pairing the issue's flattened path (raw keys
kept, descriptor segments contributing their key field) with its
message. -/
theorem transform_bound_schema_failure_errors {V : Type}
    (o : JsObjectArg V) (ns : StandardNamespace V)
    (hstd : o.stdProp = some (.objectVal ns))
    (second : Option (StandardValidationPipeOptions V))
    (hfac : (second.getD {}).exceptionFactory = none)
    (v : V) (m : ArgumentMetadata V) (issues : List Issue)
    (hfail : (ns.validate v).issues = .arr issues) :
    ∃ body status,
      transform (mkPipe (.obj o) second) v m = .thrown (.validationFailed body status)
      ∧ body.errors.length = issues.length
      ∧ ∀ (j : Nat) (hj : j < issues.length) (hj2 : j < body.errors.length),
          (body.errors.get ⟨j, hj2⟩).path =
            ((issues.get ⟨j, hj⟩).path.getD []).map segmentKey
          ∧ (body.errors.get ⟨j, hj2⟩).message = (issues.get ⟨j, hj⟩).message := by
  rw [mkPipe_schema_obj o ns hstd second]
  rw [transform_bound_fail_default_aux ⟨ns⟩ (second.getD {}) hfac v m issues hfail]
  refine ⟨_, _, rfl, ?_, ?_⟩
  · simp
  · intro j hj hj2
    constructor
    · simp [normalizePath]
      cases hp : (issues.get ⟨j, hj⟩).path with
      | none => simp
      | some segs => simp
    · simp

/-- Witness for C2: a schema reporting two issues, one with a path mixing
a raw key and a descriptor segment and one with no path, yields the
default exception with the two flattened entries in order. -/
theorem transform_bound_schema_failure_errors_witness :
    ∃ body status,
      transform
        (mkPipe
          (CtorFirstArg.obj
            ⟨some (.objectVal ⟨fun v => ⟨.arr
              [⟨some [.raw (.str "a"), .descriptor (.num 3)], "bad"⟩,
               ⟨none, "oops"⟩], v⟩⟩), {}⟩)
          none)
        (0 : Nat) ⟨.body, none⟩ = .thrown (.validationFailed body status)
      ∧ body.errors.length =
          [(⟨some [.raw (.str "a"), .descriptor (.num 3)], "bad"⟩ : Issue),
           ⟨none, "oops"⟩].length
      ∧ ∀ (j : Nat)
          (hj : j < [(⟨some [.raw (.str "a"), .descriptor (.num 3)], "bad"⟩ : Issue),
                     ⟨none, "oops"⟩].length)
          (hj2 : j < body.errors.length),
          (body.errors.get ⟨j, hj2⟩).path =
            (([(⟨some [.raw (.str "a"), .descriptor (.num 3)], "bad"⟩ : Issue),
               ⟨none, "oops"⟩].get ⟨j, hj⟩).path.getD []).map segmentKey
          ∧ (body.errors.get ⟨j, hj2⟩).message =
              ([(⟨some [.raw (.str "a"), .descriptor (.num 3)], "bad"⟩ : Issue),
                ⟨none, "oops"⟩].get ⟨j, hj⟩).message :=
  transform_bound_schema_failure_errors
    ⟨some (.objectVal ⟨fun v => ⟨.arr
      [⟨some [.raw (.str "a"), .descriptor (.num 3)], "bad"⟩,
       ⟨none, "oops"⟩], v⟩⟩), {}⟩
    ⟨fun v => ⟨.arr
      [⟨some [.raw (.str "a"), .descriptor (.num 3)], "bad"⟩,
       ⟨none, "oops"⟩], v⟩⟩
    rfl none rfl 0 ⟨.body, none⟩ _ rfl

/-- C3: a pipe constructed with an explicit schema always resolves that
schema, for every argument descriptor (including custom kind), every
declared metatype and every options record (including expectedType): the
fallback chain and the custom-kind skip are never consulted. -/
theorem getSchema_explicit_schema_always {V : Type}
    (o : JsObjectArg V) (ns : StandardNamespace V)
    (hstd : o.stdProp = some (.objectVal ns))
    (second : Option (StandardValidationPipeOptions V))
    (m : ArgumentMetadata V) :
    getSchema (mkPipe (.obj o) second) m = some ⟨ns⟩ := by
  rw [mkPipe_schema_obj o ns hstd second]
  exact getSchema_bound ⟨ns⟩ (second.getD {}) m

/-- Witness for C3: the explicit schema is resolved even for a
custom-kind descriptor whose metatype is primitive, with an expectedType
override set and validateCustomDecorators left unset. -/
theorem getSchema_explicit_schema_always_witness :
    getSchema
      (mkPipe (CtorFirstArg.obj ⟨some (.objectVal ⟨fun (v : Nat) => ⟨.absent, v⟩⟩), {}⟩)
        (some { expectedType := some ⟨true, none, none⟩ }))
      ⟨.custom, some ⟨true, none, none⟩⟩ =
      some ⟨⟨fun (v : Nat) => ⟨.absent, v⟩⟩⟩ :=
  getSchema_explicit_schema_always
    ⟨some (.objectVal ⟨fun (v : Nat) => ⟨.absent, v⟩⟩), {}⟩
    ⟨fun (v : Nat) => ⟨.absent, v⟩⟩ rfl
    (some { expectedType := some ⟨true, none, none⟩ })
    ⟨.custom, some ⟨true, none, none⟩⟩

/-- C4: for a type-driven pipe on a custom-kind parameter, with
validateCustomDecorators unset or false transform passes the input
through untouched no matter what schemas the metatype carries; with the
flag true, resolution proceeds via the metatype chain, and when it yields
a schema whose validation reports issues, transform really validates and
throws. -/
theorem transform_custom_kind_policy {V : Type}
    (opts : StandardValidationPipeOptions V) (v : V) (mt : Option (Metatype V)) :
    (opts.validateCustomDecorators = false →
      transform (mkPipe (.obj ⟨none, opts⟩) none) v ⟨.custom, mt⟩ = .ok v)
    ∧ (opts.validateCustomDecorators = true →
      getSchema (mkPipe (.obj ⟨none, opts⟩) none) ⟨.custom, mt⟩ =
        (match nullish opts.expectedType mt with
         | none => none
         | some t => if isPrimitive t then none else getSchemaFromType t))
    ∧ (opts.validateCustomDecorators = true →
      ∀ (s : SchemaObj V) (issues : List Issue),
        getSchema (mkPipe (.obj ⟨none, opts⟩) none) ⟨.custom, mt⟩ = some s →
        (s.std.validate v).issues = .arr issues →
        transform (mkPipe (.obj ⟨none, opts⟩) none) v ⟨.custom, mt⟩ =
          .thrown (createException (mkPipe (.obj ⟨none, opts⟩) none) issues)) := by
  refine ⟨?_, ?_, ?_⟩
  · intro hvcd
    simp [transform, getSchema, mkPipe, isSchema, firstArgAsOptions, hvcd]
  · intro hvcd
    simp [getSchema, mkPipe, isSchema, firstArgAsOptions, hvcd]
  · intro hvcd s issues hres hfail
    simp only [transform, hres, hfail]

/-- Witness for C4: with the flag unset a custom-kind parameter passes
through even though the metatype carries an always-failing decorator
schema; with the flag true the same metatype resolves that schema and
transform throws. -/
theorem transform_custom_kind_policy_witness :
    transform
      (mkPipe
        (CtorFirstArg.obj
          ⟨none, ({} : StandardValidationPipeOptions Nat)⟩) none)
      7
      ⟨.custom, some ⟨false, none, some ⟨⟨fun v => ⟨.arr [⟨none, "no"⟩], v⟩⟩⟩⟩⟩ =
      .ok 7 :=
  (transform_custom_kind_policy {} 7
    (some ⟨false, none, some ⟨⟨fun v => ⟨.arr [⟨none, "no"⟩], v⟩⟩⟩⟩)).1 rfl

/-- C5: a type-driven pipe whose effective type (expectedType coalesced
with the metatype) is absent, primitive, or carries neither a static nor
a decorator-attached schema returns the input unchanged and never
throws, for every parameter kind. -/
theorem transform_unresolvable_passthrough {V : Type}
    (opts : StandardValidationPipeOptions V) (v : V)
    (k : ParamKind) (mt : Option (Metatype V))
    (h : match nullish opts.expectedType mt with
         | none => True
         | some t =>
             isPrimitive t = true
             ∨ (t.staticSchema = none ∧ t.decoratorSchema = none)) :
    transform (mkPipe (.obj ⟨none, opts⟩) none) v ⟨k, mt⟩ = .ok v := by
  have hpipe : mkPipe (.obj ⟨none, opts⟩) none = ⟨none, opts⟩ := by
    simp [mkPipe, isSchema, firstArgAsOptions]
  rw [hpipe]
  unfold transform getSchema
  by_cases hcustom : k = ParamKind.custom ∧ opts.validateCustomDecorators = false
  · simp [hcustom]
  · simp only [hcustom, if_false]
    cases het : nullish opts.expectedType mt with
    | none => simp
    | some t =>
      rw [het] at h
      rcases h with hprim | ⟨hs, hd⟩
      · simp [hprim]
      · simp [getSchemaFromType, hs, hd]

/-- Witness for C5: a body parameter whose metatype is non-primitive but
carries no schema passes through unchanged. -/
theorem transform_unresolvable_passthrough_witness :
    transform
      (mkPipe (CtorFirstArg.obj ⟨none, ({} : StandardValidationPipeOptions Nat)⟩) none)
      42 ⟨.body, some ⟨false, none, none⟩⟩ = .ok 42 :=
  transform_unresolvable_passthrough {} 42 .body (some ⟨false, none, none⟩)
    (Or.inr ⟨rfl, rfl⟩)

/-- C6: with a custom exception factory configured, a failing validation
makes transform call the factory on the issue list and throw its result
unchanged when it is an HttpException instance, or wrapped in a
BadRequestException otherwise; either way a framework-level exception is
thrown. -/
theorem transform_factory_exception {V : Type}
    (o : JsObjectArg V) (ns : StandardNamespace V)
    (hstd : o.stdProp = some (.objectVal ns))
    (opts : StandardValidationPipeOptions V)
    (f : List Issue → FactoryResult V)
    (hfac : opts.exceptionFactory = some f)
    (v : V) (m : ArgumentMetadata V) (issues : List Issue)
    (hfail : (ns.validate v).issues = .arr issues) :
    transform (mkPipe (.obj o) (some opts)) v m =
      .thrown (match f issues with
               | .httpExc e => .factory e
               | .plain payload => .badRequestWrapped payload) := by
  rw [mkPipe_schema_obj o ns hstd (some opts)]
  unfold transform
  rw [getSchema_bound]
  simp only [hfail, createException, Option.getD_some, hfac]

/-- Witness for C6: a factory returning a plain record gets wrapped in a
BadRequestException, evaluated on a concrete failing schema. -/
theorem transform_factory_exception_witness :
    transform
      (mkPipe
        (CtorFirstArg.obj ⟨some (.objectVal ⟨fun (v : Nat) => ⟨.arr [⟨none, "no"⟩], v⟩⟩), {}⟩)
        (some { exceptionFactory := some fun _ => .plain 99 }))
      1 ⟨.body, none⟩ = .thrown (.badRequestWrapped 99) :=
  transform_factory_exception
    ⟨some (.objectVal ⟨fun (v : Nat) => ⟨.arr [⟨none, "no"⟩], v⟩⟩), {}⟩
    ⟨fun (v : Nat) => ⟨.arr [⟨none, "no"⟩], v⟩⟩ rfl
    { exceptionFactory := some fun _ => .plain 99 }
    (fun _ => .plain 99) rfl 1 ⟨.body, none⟩ [⟨none, "no"⟩] rfl

/-- C7: without a custom factory, a failing validation throws the default
exception: its body is the record of the surfaced status code, the fixed
message Validation failed, and the path-and-message entries, it is
surfaced with the status from errorHttpStatusCode, that status defaults
to 400 when the option is unset, and the statusCode field of the body
always equals the surfaced status. -/
theorem transform_default_error_shape {V : Type}
    (o : JsObjectArg V) (ns : StandardNamespace V)
    (hstd : o.stdProp = some (.objectVal ns))
    (second : Option (StandardValidationPipeOptions V))
    (hfac : (second.getD {}).exceptionFactory = none)
    (v : V) (m : ArgumentMetadata V) (issues : List Issue)
    (hfail : (ns.validate v).issues = .arr issues) :
    transform (mkPipe (.obj o) second) v m =
      .thrown (.validationFailed
        ⟨(second.getD {}).errorHttpStatusCode.getD 400, "Validation failed",
          issues.map fun i => ⟨normalizePath i.path, i.message⟩⟩
        ((second.getD {}).errorHttpStatusCode.getD 400))
    ∧ ((second.getD {}).errorHttpStatusCode = none →
        (second.getD {}).errorHttpStatusCode.getD 400 = 400) := by
  constructor
  · rw [mkPipe_schema_obj o ns hstd second]
    exact transform_bound_fail_default_aux ⟨ns⟩ (second.getD {}) hfac v m issues hfail
  · intro h
    rw [h]
    rfl

/-- Witness for C7: with no options at all, a failing schema produces the
default body and status 400. -/
theorem transform_default_error_shape_witness :
    transform
      (mkPipe
        (CtorFirstArg.obj ⟨some (.objectVal ⟨fun (v : Nat) => ⟨.arr [⟨none, "no"⟩], v⟩⟩), {}⟩)
        none)
      1 ⟨.body, none⟩ =
      .thrown (.validationFailed ⟨400, "Validation failed", [⟨[], "no"⟩]⟩ 400) :=
  ((transform_default_error_shape
    ⟨some (.objectVal ⟨fun (v : Nat) => ⟨.arr [⟨none, "no"⟩], v⟩⟩), {}⟩
    ⟨fun (v : Nat) => ⟨.arr [⟨none, "no"⟩], v⟩⟩ rfl
    none rfl 1 ⟨.body, none⟩ [⟨none, "no"⟩] rfl).1)

/-- C8: schema resolution from a type returns the static schema property
whenever it is present, consults the decorator metadata only when it is
absent, and when neither exists (on a non-primitive type) the type-driven
pipe skips validation and passes the value through. -/
theorem getSchemaFromType_resolution_order {V : Type} (t : Metatype V) :
    (∀ s, t.staticSchema = some s → getSchemaFromType t = some s)
    ∧ (t.staticSchema = none → getSchemaFromType t = t.decoratorSchema)
    ∧ (t.staticSchema = none → t.decoratorSchema = none →
        ∀ (opts : StandardValidationPipeOptions V) (v : V) (k : ParamKind),
          opts.expectedType = none → isPrimitive t = false →
          transform (mkPipe (.obj ⟨none, opts⟩) none) v ⟨k, some t⟩ = .ok v) := by
  refine ⟨?_, ?_, ?_⟩
  · intro s h
    simp [getSchemaFromType, h]
  · intro h
    simp [getSchemaFromType, h]
  · intro hs hd opts v k het _
    apply transform_unresolvable_passthrough
    rw [het]
    exact Or.inr ⟨hs, hd⟩

/-- Witness for C8: on a type carrying both a static schema and a
decorator schema, resolution returns the static one. -/
theorem getSchemaFromType_resolution_order_witness :
    getSchemaFromType
      (⟨false,
        some ⟨⟨fun (v : Nat) => ⟨.absent, v⟩⟩⟩,
        some ⟨⟨fun (v : Nat) => ⟨.arr [⟨none, "no"⟩], v⟩⟩⟩⟩ : Metatype Nat) =
      some ⟨⟨fun (v : Nat) => ⟨.absent, v⟩⟩⟩ :=
  (getSchemaFromType_resolution_order
    ⟨false,
      some ⟨⟨fun (v : Nat) => ⟨.absent, v⟩⟩⟩,
      some ⟨⟨fun (v : Nat) => ⟨.arr [⟨none, "no"⟩], v⟩⟩⟩⟩).1
    ⟨⟨fun (v : Nat) => ⟨.absent, v⟩⟩⟩ rfl

/-- C9: for a pipe bound to an explicit schema, transform throws exactly
when the outcome's issues field holds an array; an issues field that is
present but undefined counts as success and the outcome's value field is
returned; and (without a custom factory) an empty issues array counts as
failure, throwing the default exception with an empty errors array. -/
theorem transform_issues_truthiness {V : Type}
    (o : JsObjectArg V) (ns : StandardNamespace V)
    (hstd : o.stdProp = some (.objectVal ns))
    (second : Option (StandardValidationPipeOptions V))
    (v : V) (m : ArgumentMetadata V) :
    ((∃ e, transform (mkPipe (.obj o) second) v m = .thrown e)
        ↔ ∃ issues, (ns.validate v).issues = .arr issues)
    ∧ ((ns.validate v).issues = .undef →
        transform (mkPipe (.obj o) second) v m = .ok (ns.validate v).value)
    ∧ ((second.getD {}).exceptionFactory = none →
        (ns.validate v).issues = .arr [] →
        transform (mkPipe (.obj o) second) v m =
          .thrown (.validationFailed
            ⟨(second.getD {}).errorHttpStatusCode.getD badRequestStatusCode,
              "Validation failed", []⟩
            ((second.getD {}).errorHttpStatusCode.getD badRequestStatusCode))) := by
  rw [mkPipe_schema_obj o ns hstd second]
  have hT : transform ⟨some ⟨ns⟩, second.getD {}⟩ v m =
      match (ns.validate v).issues with
      | .arr issues => .thrown (createException ⟨some ⟨ns⟩, second.getD {}⟩ issues)
      | _ => .ok (ns.validate v).value := rfl
  refine ⟨⟨?_, ?_⟩, ?_, ?_⟩
  · rintro ⟨e, he⟩
    rw [hT] at he
    cases hiss : (ns.validate v).issues with
    | arr l => exact ⟨l, rfl⟩
    | absent => rw [hiss] at he; simp at he
    | undef => rw [hiss] at he; simp at he
    | nullv => rw [hiss] at he; simp at he
  · rintro ⟨issues, hiss⟩
    rw [hT, hiss]
    exact ⟨_, rfl⟩
  · intro hiss
    rw [hT, hiss]
  · intro hfac hiss
    rw [hT, hiss]
    simp [createException, hfac]

/-- Witness for C9: a schema producing an issues field that is present
but undefined makes transform succeed with the outcome's value. -/
theorem transform_issues_truthiness_witness :
    transform
      (mkPipe (CtorFirstArg.obj ⟨some (.objectVal ⟨fun v => ⟨.undef, v + 1⟩⟩), {}⟩) none)
      5 ⟨.body, none⟩ = TransformResult.ok 6 :=
  (transform_issues_truthiness
    ⟨some (.objectVal ⟨fun v => ⟨.undef, v + 1⟩⟩), {}⟩
    ⟨fun v => ⟨.undef, v + 1⟩⟩ rfl none 5 ⟨.body, none⟩).2.1 rfl

/-- C10: the constructor binds its first argument as the schema exactly
when that argument is a non-null object whose tilde-standard property
exists and is an object, in which case the second argument (defaulted to
the empty record) supplies the options; otherwise the pipe is
type-driven, a non-schema object first argument becomes the options
record with the second argument ignored, and an undefined, null or
primitive first argument yields the empty options record. -/
theorem mkPipe_constructor_dispatch {V : Type} (first : CtorFirstArg V)
    (second : Option (StandardValidationPipeOptions V)) :
    ((mkPipe first second).schema.isSome = true ↔
        ∃ o ns, first = .obj o ∧ o.stdProp = some (.objectVal ns))
    ∧ (∀ o ns, first = .obj o → o.stdProp = some (.objectVal ns) →
        mkPipe first second = ⟨some ⟨ns⟩, second.getD {}⟩)
    ∧ (∀ o, first = .obj o → (∀ ns, o.stdProp ≠ some (.objectVal ns)) →
        mkPipe first second = ⟨none, o.asOptions⟩)
    ∧ (first = .undef → mkPipe first second = ⟨none, {}⟩)
    ∧ (first = .nullv → mkPipe first second = ⟨none, {}⟩)
    ∧ (first = .primitive → mkPipe first second = ⟨none, {}⟩) := by
  cases first with
  | undef =>
    refine ⟨?_, ?_, ?_, ?_, ?_, ?_⟩ <;>
      simp [mkPipe, isSchema, firstArgAsOptions]
  | nullv =>
    refine ⟨?_, ?_, ?_, ?_, ?_, ?_⟩ <;>
      simp [mkPipe, isSchema, firstArgAsOptions]
  | primitive =>
    refine ⟨?_, ?_, ?_, ?_, ?_, ?_⟩ <;>
      simp [mkPipe, isSchema, firstArgAsOptions]
  | obj o =>
    obtain ⟨sp, aopt⟩ := o
    cases sp with
    | none =>
      refine ⟨?_, ?_, ?_, ?_, ?_, ?_⟩
      · simp only [mkPipe, isSchema, if_false]
        constructor
        · intro h
          simp at h
        · rintro ⟨o2, ns2, heq, hp⟩
          cases heq
          cases hp
      · intro o2 ns2 heq hp
        cases heq
        cases hp
      · intro o2 heq _
        cases heq
        simp [mkPipe, isSchema, firstArgAsOptions]
      · intro h; cases h
      · intro h; cases h
      · intro h; cases h
    | some p =>
      cases p with
      | objectVal ns =>
        refine ⟨?_, ?_, ?_, ?_, ?_, ?_⟩
        · simp only [mkPipe, isSchema, schemaOf, if_true]
          constructor
          · intro _
            exact ⟨⟨some (.objectVal ns), aopt⟩, ns, rfl, rfl⟩
          · intro _
            rfl
        · intro o2 ns2 heq hp
          cases heq
          cases hp
          simp [mkPipe, isSchema, schemaOf]
        · intro o2 heq hne
          cases heq
          exact absurd rfl (hne ns)
        · intro h; cases h
        · intro h; cases h
        · intro h; cases h
      | nonObjectVal =>
        refine ⟨?_, ?_, ?_, ?_, ?_, ?_⟩
        · simp only [mkPipe, isSchema, if_false]
          constructor
          · intro h
            simp at h
          · rintro ⟨o2, ns2, heq, hp⟩
            cases heq
            cases hp
        · intro o2 ns2 heq hp
          cases heq
          cases hp
        · intro o2 heq _
          cases heq
          simp [mkPipe, isSchema, firstArgAsOptions]
        · intro h; cases h
        · intro h; cases h
        · intro h; cases h

/-- Witness for C10: an undefined first argument with a non-trivial
second argument yields a type-driven pipe with the empty options record,
the second argument being ignored. -/
theorem mkPipe_constructor_dispatch_witness :
    mkPipe (CtorFirstArg.undef : CtorFirstArg Nat)
        (some { errorHttpStatusCode := some 418 }) =
      ⟨none, {}⟩ :=
  (mkPipe_constructor_dispatch CtorFirstArg.undef
    (some { errorHttpStatusCode := some 418 })).2.2.2.1 rfl

end StdSchemaPipe
